import Mathlib

/-!
Verification of the device-control core of GrandmaTVController.

The embedding translates `src/core.py` (the `TVController` class including
`execute_action_with_retry`, `run_sequence`, `connect`, `_save_key`,
`turn_off`, the `WakeOnLanService.wake_device` helper and the `ACTIONS`
catalog) and the action handler of `src/web_server.py` into pure Lean
functions.  Exceptions become an explicit `Exc` type threaded in
`Except`/`Option` style, device and timing side effects become events in a
trace, and the behaviour of the external WebOS client and of the file
system is abstracted into an oracle `Env` consulted at each call site.
-/

set_option autoImplicit false

namespace GrandmaTV

/-- Python exception values relevant to `core.py`, each carrying the text
that `str(e)` would render.  `isOSErrorSub` below records which of these
are subclasses of `OSError` in Python's hierarchy. -/
inductive Exc where
  | wsMessageTypeError (msg : String)
  | timeoutError (msg : String)
  | osError (msg : String)
  | connectionError (msg : String)
  | connectionResetError (msg : String)
  | permissionError (msg : String)
  | valueError (msg : String)
  | runtimeError (msg : String)
deriving DecidableEq

/-- The text `str(e)` interpolated by the f-strings of `core.py`. -/
def excMsg : Exc → String
  | .wsMessageTypeError m => m
  | .timeoutError m => m
  | .osError m => m
  | .connectionError m => m
  | .connectionResetError m => m
  | .permissionError m => m
  | .valueError m => m
  | .runtimeError m => m

/-- `is_tv_off_error` of `core.py`:
`isinstance(e, (WSMessageTypeError, TimeoutError, OSError, ConnectionError))`.
`ConnectionError`, `ConnectionResetError`, `PermissionError` and
`TimeoutError` are all `OSError` subclasses in Python, so every
constructor except `valueError` and `runtimeError` matches. -/
def is_tv_off_error : Exc → Bool
  | .wsMessageTypeError _ => true
  | .timeoutError _ => true
  | .osError _ => true
  | .connectionError _ => true
  | .connectionResetError _ => true
  | .permissionError _ => true
  | .valueError _ => false
  | .runtimeError _ => false

/-- One `ActionStep = tuple[str, str, float]` of `core.py`; delays are
modelled as rationals. -/
structure Step where
  kind : String
  value : String
  delay : ℚ
deriving DecidableEq

/-- The static `ACTIONS` catalog of `core.py`. -/
def ACTIONS : List (String × List Step) :=
  [("channel_1",
    [⟨"BTN", "HOME", 1⟩,
     ⟨"APP", "cz.tmobile.tvgo", 10⟩,
     ⟨"BTN", "RIGHT", 1⟩,
     ⟨"BTN", "ENTER", 1⟩,
     ⟨"BTN", "1", 1⟩,
     ⟨"BTN", "ENTER", 1⟩,
     ⟨"BTN", "ENTER", 1⟩,
     ⟨"BTN", "RIGHT", 1⟩,
     ⟨"BTN", "ENTER", 0⟩]),
   ("channel_2",
    [⟨"BTN", "HOME", 1⟩,
     ⟨"APP", "cz.tmobile.tvgo", 10⟩,
     ⟨"BTN", "RIGHT", 1⟩,
     ⟨"BTN", "ENTER", 1⟩,
     ⟨"BTN", "2", 1⟩,
     ⟨"BTN", "ENTER", 1⟩,
     ⟨"BTN", "ENTER", 1⟩,
     ⟨"BTN", "RIGHT", 1⟩,
     ⟨"BTN", "ENTER", 0⟩])]

/-- Observable side effects of one `execute_action_with_retry` invocation.
Sessions (fresh `WebOsClient` objects) are numbered in creation order. -/
inductive Event where
  | connect (session : Nat)
  | saveKey (key : String)
  | launchApp (session : Nat) (appId : String)
  | button (session : Nat) (key : String)
  | sleep (d : ℚ)
  | disconnect (session : Nat)
  | wakeCall (mac : String)
  | wakePacket (mac : String)
  | powerOff (session : Nat)
deriving DecidableEq

/-- Oracle for everything outside `core.py`'s own logic: outcomes of WebOS
client calls per session, the key the channel reports, whether the config
file write succeeds, and the wake-packet send outcome.  `none` means the
Python call returns normally; `some e` means it raises `e`. -/
structure Env where
  connectOutcome : Nat → Option Exc
  channelKey : Nat → Option String
  writeOutcome : Option Exc
  callOutcome : Nat → Nat → Option Exc
  stillConnected : Nat → Bool
  disconnectOutcome : Nat → Option Exc
  powerOffOutcome : Nat → Option Exc
  wakeOutcome : Option Exc

/-- The persisted YAML mapping, restricted to string values. -/
abbrev Yaml := List (String × String)

/-- Python dict update `data[k] = v`: replace in place, else append. -/
def dictSet : Yaml → String → String → Yaml
  | [], k, v => [(k, v)]
  | (k', v') :: rest, k, v =>
    if k' = k then (k, v) :: rest else (k', v') :: dictSet rest k v

/-- The mutable state shared between controller instances of one
invocation: `config.client_key` (mutated by `_save_key`) and the persisted
store behind `config_file`. -/
structure KeyState where
  configKey : Option String
  store : Yaml

/-- `TVController._save_key`: sets `config.client_key`, then rewrites the
store with `client_key` merged in.  If the write raises
(`env.writeOutcome`), the store is unchanged but `config.client_key` has
already been updated. -/
def save_key (writeOutcome : Option Exc) (ks : KeyState) (k : String) :
    KeyState × List Event × Option Exc :=
  let ks1 : KeyState := { ks with configKey := some k }
  match writeOutcome with
  | some e => (ks1, [], some e)
  | none => ({ ks1 with store := dictSet ks.store "client_key" k },
             [Event.saveKey k], none)

/-- `TVController.connect` for a freshly constructed controller of session
`n` (so `client.is_connected()` is false on entry and
`self.client_key = config.client_key`).  After a successful
`client.connect()`, a truthy channel key differing from the held key is
saved via `_save_key`. -/
def connectM (env : Env) (n : Nat) (ks : KeyState) :
    KeyState × List Event × Option Exc :=
  match env.connectOutcome n with
  | some e => (ks, [Event.connect n], some e)
  | none =>
    match env.channelKey n with
    | some k =>
      if k ≠ "" ∧ some k ≠ ks.configKey then
        match save_key env.writeOutcome ks k with
        | (ks', evs, r) => (ks', Event.connect n :: evs, r)
      else (ks, [Event.connect n], none)
    | none => (ks, [Event.connect n], none)

/-- The `if delay > 0: await asyncio.sleep(delay)` tail of one step. -/
def delayEvents (s : Step) : List Event :=
  if 0 < s.delay then [Event.sleep s.delay] else []

/-- The step loop of `TVController.run_sequence`: an `APP` step calls
`launch_app`, a `BTN` step calls `button`, any other tag makes no device
call; a raised call aborts (skipping that step's delay); after a
successful step a positive delay sleeps.  `i` is the step's position,
used to index `env.callOutcome`. -/
def runSteps (env : Env) (n : Nat) : Nat → List Step → List Event × Option Exc
  | _, [] => ([], none)
  | i, s :: rest =>
    if s.kind = "APP" then
      match env.callOutcome n i with
      | some e => ([Event.launchApp n s.value], some e)
      | none =>
        match runSteps env n (i + 1) rest with
        | (t, r) => (Event.launchApp n s.value :: (delayEvents s ++ t), r)
    else if s.kind = "BTN" then
      match env.callOutcome n i with
      | some e => ([Event.button n s.value], some e)
      | none =>
        match runSteps env n (i + 1) rest with
        | (t, r) => (Event.button n s.value :: (delayEvents s ++ t), r)
    else
      match runSteps env n (i + 1) rest with
      | (t, r) => (delayEvents s ++ t, r)

/-- `TVController.run_sequence`: connect, run the steps, then — on full
completion only — disconnect if still connected, swallowing a
`ConnectionResetError` from the close. -/
def run_sequence (env : Env) (n : Nat) (seq : List Step) (ks : KeyState) :
    KeyState × List Event × Option Exc :=
  match connectM env n ks with
  | (ks', cevs, some e) => (ks', cevs, some e)
  | (ks', cevs, none) =>
    match runSteps env n 0 seq with
    | (sevs, some e) => (ks', cevs ++ sevs, some e)
    | (sevs, none) =>
      if env.stillConnected n then
        match env.disconnectOutcome n with
        | some (Exc.connectionResetError _) =>
          (ks', cevs ++ sevs ++ [Event.disconnect n], none)
        | some e => (ks', cevs ++ sevs ++ [Event.disconnect n], some e)
        | none => (ks', cevs ++ sevs ++ [Event.disconnect n], none)
      else (ks', cevs ++ sevs, none)

/-- `TVController.turn_off`: connect, then `client.power_off()`. -/
def turn_offM (env : Env) (n : Nat) (ks : KeyState) :
    KeyState × List Event × Option Exc :=
  match connectM env n ks with
  | (ks', evs, some e) => (ks', evs, some e)
  | (ks', evs, none) =>
    match env.powerOffOutcome n with
    | some e => (ks', evs ++ [Event.powerOff n], some e)
    | none => (ks', evs ++ [Event.powerOff n], none)

/-- `WakeOnLanService.wake_device`: raises `ValueError` on an empty MAC,
otherwise sends 3 magic packets 0.5 s apart and waits a 12 s settle
window.  A failing packet send (`env.wakeOutcome`) aborts at the first
packet. -/
def wake_device (env : Env) (mac : String) : List Event × Option Exc :=
  if mac = "" then
    ([Event.wakeCall mac], some (Exc.valueError "MAC address not configured."))
  else
    match env.wakeOutcome with
    | some e => ([Event.wakeCall mac], some e)
    | none =>
      ([Event.wakeCall mac,
        Event.wakePacket mac, Event.sleep (1 / 2),
        Event.wakePacket mac, Event.sleep (1 / 2),
        Event.wakePacket mac, Event.sleep (1 / 2),
        Event.sleep 12], none)

/-- The `config_data: dict[str, Any]` argument, restricted to the three
keys `execute_action_with_retry` reads with `.get`. -/
structure ConfigData where
  ip : Option String
  mac : Option String
  client_key : Option String

/-- The body of `execute_action_with_retry` inside its outermost
`try`.  Every code path that executes a Python `return s` yields
`Except.ok s`; an uncaught exception would yield `Except.error`. -/
def execute_core (env : Env) (action_name : String) (cfg : ConfigData)
    (store : Yaml) : KeyState × List Event × Except Exc String :=
  let mac := cfg.mac.getD ""
  let ks0 : KeyState := ⟨cfg.client_key, store⟩
  if action_name = "turn_off" then
    match turn_offM env 0 ks0 with
    | (ks, t, none) => (ks, t, Except.ok "TV turned off.")
    | (ks, t, some e) =>
      if is_tv_off_error e then
        (ks, t, Except.ok "TV is already off or unreachable.")
      else
        (ks, t, Except.ok ("Failed to turn off TV: " ++ excMsg e))
  else if action_name = "turn_on" then
    match wake_device env mac with
    | (t, none) => (ks0, t, Except.ok "TV Wake-on-LAN sent.")
    | (t, some e) => (ks0, t, Except.ok ("Failed to wake TV: " ++ excMsg e))
  else
    match ACTIONS.lookup action_name with
    | none => (ks0, [], Except.ok ("Unknown action: " ++ action_name))
    | some seq =>
      match run_sequence env 0 seq ks0 with
      | (ks1, t1, none) =>
        (ks1, t1,
         Except.ok ("Action \x27" ++ action_name ++ "\x27 completed successfully!"))
      | (ks1, t1, some e) =>
        if is_tv_off_error e then
          match wake_device env mac with
          | (tw, some we) =>
            (ks1, t1 ++ tw,
             Except.ok ("TV is off and Wake-on-LAN failed: " ++ excMsg we))
          | (tw, none) =>
            match run_sequence env 1 seq ks1 with
            | (ks2, t2, none) =>
              (ks2, t1 ++ tw ++ [Event.sleep 2] ++ t2,
               Except.ok ("TV was woken up. Action \x27" ++ action_name ++
                 "\x27 completed successfully!"))
            | (ks2, t2, some re) =>
              (ks2, t1 ++ tw ++ [Event.sleep 2] ++ t2,
               Except.ok ("TV was woken but action failed: " ++ excMsg re))
        else
          (ks1, t1,
           Except.ok ("Action \x27" ++ action_name ++ "\x27 failed: " ++ excMsg e))

/-- `execute_action_with_retry` with its outermost defensive
`except Exception` applied: always a plain string. -/
def execute_action_with_retry (env : Env) (action_name : String)
    (cfg : ConfigData) (store : Yaml) : KeyState × List Event × String :=
  match execute_core env action_name cfg store with
  | (ks, t, Except.ok s) => (ks, t, s)
  | (ks, t, Except.error e) => (ks, t, "Unexpected error: " ++ excMsg e)

/-- The JSON response shape of `web_server.handle_action`. -/
structure WebResponse where
  status : String
  message : Option String
  error : Option String
  httpStatus : Nat
deriving DecidableEq

/-- `web_server.handle_action`: if `_action_lock.locked()` the request is
rejected as busy with HTTP 429 and nothing else runs; otherwise the
action executes under the lock and the result is wrapped per the
handler's `try/except` arms. -/
def handle_action (lockLocked : Bool) (env : Env) (action_name : String)
    (cfg : ConfigData) (store : Yaml) : WebResponse × List Event :=
  if lockLocked then
    (⟨"busy", none, some "Another command is already running, please wait.", 429⟩, [])
  else
    match execute_core env action_name cfg store with
    | (_, t, Except.ok msg) => (⟨"ok", some msg, none, 200⟩, t)
    | (_, t, Except.error (Exc.valueError m)) => (⟨"error", none, some m, 400⟩, t)
    | (_, t, Except.error e) => (⟨"error", none, some (excMsg e), 500⟩, t)

/-- Number of `WakeOnLanService.wake_device` invocations in a trace. -/
def countWakeCalls (t : List Event) : Nat :=
  t.countP (fun ev => match ev with | Event.wakeCall _ => true | _ => false)

/-- Number of `client.connect()` attempts in a trace. -/
def countConnects (t : List Event) : Nat :=
  t.countP (fun ev => match ev with | Event.connect _ => true | _ => false)

/-- Events that are per-step device calls (`launch_app` / `button`). -/
def isDeviceCall : Event → Bool
  | Event.launchApp _ _ => true
  | Event.button _ _ => true
  | _ => false

/-- Spec-side expected effect of one step (§4.4/§8 of the specification):
exactly one device call per step, dispatched on its Kind, followed by a
suspension exactly when the post-delay is positive.  Stated independently
of `runSteps` for the refinement claim about sequence execution. -/
def specStepTrace (n : Nat) (s : Step) : List Event :=
  (if s.kind = "APP" then [Event.launchApp n s.value]
   else [Event.button n s.value]) ++
  (if 0 < s.delay then [Event.sleep s.delay] else [])

/-- Spec-side expected trace of a whole sequence, in order. -/
def specSeqTrace (n : Nat) : List Step → List Event
  | [] => []
  | s :: rest => specStepTrace n s ++ specSeqTrace n rest

/-- Every per-step device call in `t` is preceded by a persistence of
key `k`. -/
def savedBeforeCalls (k : String) (t : List Event) : Prop :=
  ∀ pre ev suf, t = pre ++ ev :: suf → isDeviceCall ev = true →
    Event.saveKey k ∈ pre

/-- An environment in which every external call succeeds and the channel
reports no key. -/
def envOk : Env where
  connectOutcome := fun _ => none
  channelKey := fun _ => none
  writeOutcome := none
  callOutcome := fun _ _ => none
  stillConnected := fun _ => true
  disconnectOutcome := fun _ => none
  powerOffOutcome := fun _ => none
  wakeOutcome := none

/-- A device that refuses every connection (powered off). -/
def envDown : Env :=
  { envOk with connectOutcome := fun _ => some (Exc.osError "refused") }

/-- A healthy device whose first connection raises a non-unreachable
error. -/
def envBadCfg : Env :=
  { envOk with connectOutcome := fun _ => some (Exc.runtimeError "boom") }

/-- A healthy device whose channel reports a fresh pairing key. -/
def envNewKey : Env :=
  { envOk with channelKey := fun _ => some "NEWKEY" }

/-- A healthy device reporting a fresh pairing key while the key store is
unwritable. -/
def envNoWrite : Env :=
  { envNewKey with writeOutcome := some (Exc.permissionError "denied") }

/-- A configuration with ip, mac and no stored pairing key. -/
def cfgFull : ConfigData := ⟨some "192.168.1.10", some "AA:BB:CC:DD:EE:FF", none⟩

/-- A configuration with no mac entry. -/
def cfgNoMac : ConfigData := ⟨some "192.168.1.10", none, none⟩

/-- A persisted store holding an unrelated field. -/
def store0 : Yaml := [("ip", "192.168.1.10")]

/-! ## Helper lemmas -/

theorem countWakeCalls_append (t₁ t₂ : List Event) :
    countWakeCalls (t₁ ++ t₂) = countWakeCalls t₁ + countWakeCalls t₂ := by
  simp [countWakeCalls, List.countP_append]

theorem countConnects_append (t₁ t₂ : List Event) :
    countConnects (t₁ ++ t₂) = countConnects t₁ + countConnects t₂ := by
  simp [countConnects, List.countP_append]

theorem delayEvents_wake (s : Step) : countWakeCalls (delayEvents s) = 0 := by
  unfold delayEvents; split <;> simp [countWakeCalls]

theorem delayEvents_connect (s : Step) : countConnects (delayEvents s) = 0 := by
  unfold delayEvents; split <;> simp [countConnects]

theorem runSteps_wake_zero (env : Env) (n : Nat) :
    ∀ (i : Nat) (seq : List Step), countWakeCalls (runSteps env n i seq).1 = 0 := by
  intro i seq
  induction seq generalizing i with
  | nil => simp [runSteps, countWakeCalls]
  | cons s rest ih =>
    have h := ih (i + 1)
    rcases hr : runSteps env n (i + 1) rest with ⟨t, r⟩
    rw [hr] at h
    by_cases hA : s.kind = "APP" <;> by_cases hB : s.kind = "BTN" <;>
      cases hc : env.callOutcome n i <;>
        simp_all [runSteps, countWakeCalls_append, countWakeCalls] <;>
          (intro a ha; unfold delayEvents at ha; split at ha <;> simp_all)

theorem runSteps_connect_zero (env : Env) (n : Nat) :
    ∀ (i : Nat) (seq : List Step), countConnects (runSteps env n i seq).1 = 0 := by
  intro i seq
  induction seq generalizing i with
  | nil => simp [runSteps, countConnects]
  | cons s rest ih =>
    have h := ih (i + 1)
    rcases hr : runSteps env n (i + 1) rest with ⟨t, r⟩
    rw [hr] at h
    by_cases hA : s.kind = "APP" <;> by_cases hB : s.kind = "BTN" <;>
      cases hc : env.callOutcome n i <;>
        simp_all [runSteps, countConnects_append, countConnects] <;>
          (intro a ha; unfold delayEvents at ha; split at ha <;> simp_all)

theorem runSteps_none (env : Env) (n : Nat)
    (hcalls : ∀ i, env.callOutcome n i = none) :
    ∀ (i : Nat) (seq : List Step), (runSteps env n i seq).2 = none := by
  intro i seq
  induction seq generalizing i with
  | nil => simp [runSteps]
  | cons s rest ih =>
    have h := ih (i + 1)
    rcases hr : runSteps env n (i + 1) rest with ⟨t, r⟩
    rw [hr] at h
    by_cases hA : s.kind = "APP" <;> by_cases hB : s.kind = "BTN" <;>
      simp_all [runSteps, hcalls i]

theorem connectM_wake_zero (env : Env) (n : Nat) (ks : KeyState) :
    countWakeCalls (connectM env n ks).2.1 = 0 := by
  unfold connectM save_key
  cases env.connectOutcome n <;> cases env.channelKey n <;>
    cases env.writeOutcome <;>
      simp_all [countWakeCalls] <;> split <;> simp [countWakeCalls]

theorem connectM_connect_one (env : Env) (n : Nat) (ks : KeyState) :
    countConnects (connectM env n ks).2.1 = 1 := by
  unfold connectM save_key
  cases env.connectOutcome n <;> cases env.channelKey n <;>
    cases env.writeOutcome <;>
      simp_all [countConnects] <;> split <;> simp [countConnects]

theorem run_sequence_wake_zero (env : Env) (n : Nat) (seq : List Step)
    (ks : KeyState) : countWakeCalls (run_sequence env n seq ks).2.1 = 0 := by
  have hc := connectM_wake_zero env n ks
  have hs := runSteps_wake_zero env n 0 seq
  unfold run_sequence
  rcases hcm : connectM env n ks with ⟨ks', cevs, rc⟩
  rw [hcm] at hc
  rcases hrs : runSteps env n 0 seq with ⟨sevs, rs⟩
  rw [hrs] at hs
  cases rc <;> cases rs <;>
    simp_all [countWakeCalls_append, countWakeCalls] <;>
      split <;> try split
  all_goals
    intro a ha
    simp only [List.mem_append, List.mem_singleton] at ha
    first
      | (rcases ha with h | h | h
         · exact hc a h
         · exact hs a h
         · subst h; rfl)
      | (rcases ha with h | h
         · exact hc a h
         · exact hs a h)

theorem run_sequence_connect_one (env : Env) (n : Nat) (seq : List Step)
    (ks : KeyState) : countConnects (run_sequence env n seq ks).2.1 = 1 := by
  have hc := connectM_connect_one env n ks
  have hs := runSteps_connect_zero env n 0 seq
  unfold run_sequence
  rcases hcm : connectM env n ks with ⟨ks', cevs, rc⟩
  rw [hcm] at hc
  rcases hrs : runSteps env n 0 seq with ⟨sevs, rs⟩
  rw [hrs] at hs
  cases rc <;> cases rs <;>
    simp_all [countConnects_append, countConnects] <;>
      split <;> try split
  all_goals simp_all [countConnects_append, countConnects]

theorem wake_device_wake_one (env : Env) (mac : String) :
    countWakeCalls (wake_device env mac).1 = 1 := by
  unfold wake_device
  split <;> [skip; cases env.wakeOutcome] <;> simp [countWakeCalls]

theorem wake_device_connect_zero (env : Env) (mac : String) :
    countConnects (wake_device env mac).1 = 0 := by
  unfold wake_device
  split <;> [skip; cases env.wakeOutcome] <;> simp [countConnects]

theorem connect_mem_run_sequence (env : Env) (n : Nat) (seq : List Step)
    (ks : KeyState) : Event.connect n ∈ (run_sequence env n seq ks).2.1 := by
  have hc : Event.connect n ∈ (connectM env n ks).2.1 := by
    unfold connectM save_key
    cases env.connectOutcome n <;> cases env.channelKey n <;>
      cases env.writeOutcome <;> simp_all <;> split <;> simp
  unfold run_sequence
  rcases hcm : connectM env n ks with ⟨ks', cevs, rc⟩
  rw [hcm] at hc
  rcases hrs : runSteps env n 0 seq with ⟨sevs, rs⟩
  cases rc <;> cases rs <;> simp_all <;> split <;> try split
  all_goals simp_all

theorem lookup_ACTIONS_names (a : String) (seq : List Step)
    (h : ACTIONS.lookup a = some seq) : a = "channel_1" ∨ a = "channel_2" := by
  by_cases h1 : a = "channel_1"
  · exact Or.inl h1
  by_cases h2 : a = "channel_2"
  · exact Or.inr h2
  exfalso
  have b1 : (a == "channel_1") = false := beq_eq_false_iff_ne.mpr h1
  have b2 : (a == "channel_2") = false := beq_eq_false_iff_ne.mpr h2
  simp [ACTIONS, List.lookup, b1, b2] at h

theorem dictSet_lookup_ne (d : Yaml) (k v f : String) (h : f ≠ k) :
    (dictSet d k v).lookup f = d.lookup f := by
  induction d with
  | nil => simp [dictSet, List.lookup, beq_eq_false_iff_ne.mpr h]
  | cons p rest ih =>
    rcases p with ⟨k', v'⟩
    by_cases hk : k' = k
    · subst hk
      simp [dictSet, List.lookup, beq_eq_false_iff_ne.mpr h]
    · cases hfk : f == k' <;> simp [dictSet, hk, List.lookup, hfk, ih]

theorem dictSet_idem (d : Yaml) (k v : String) :
    dictSet (dictSet d k v) k v = dictSet d k v := by
  induction d with
  | nil => simp [dictSet]
  | cons p rest ih =>
    rcases p with ⟨k', v'⟩
    by_cases hk : k' = k <;> simp [dictSet, hk, ih]

/-! ## Claims -/

/-- C1: for every action name and every configuration dictionary,
`execute_action_with_retry` resolves every code path to a returned status
string: the body of its outermost `try` never lets an exception escape,
for unknown action names, device I/O failures, wake failures, and
failures on the retry attempt alike. -/
theorem execute_never_raises (env : Env) (a : String) (cfg : ConfigData)
    (store : Yaml) : ∃ s, (execute_core env a cfg store).2.2 = Except.ok s := by
  unfold execute_core
  dsimp only
  repeat' first
    | exact ⟨_, rfl⟩
    | split

/-- C9: while the command lock is held, `handle_action` returns the busy
JSON response with HTTP 429 immediately, with an empty effect trace — no
device I/O and no wake signal. -/
theorem busy_rejected_immediately (env : Env) (a : String) (cfg : ConfigData)
    (store : Yaml) :
    handle_action true env a cfg store =
      (⟨"busy", none, some "Another command is already running, please wait.", 429⟩,
       []) := rfl

/-- C10: a step whose kind tag is neither `APP` nor `BTN` issues no device
call, yet its positive post-delay still sleeps and the remaining steps
still run. -/
theorem unknown_kind_step_skipped (env : Env) (n i : Nat) (s : Step)
    (rest : List Step) (hA : s.kind ≠ "APP") (hB : s.kind ≠ "BTN")
    (hd : 0 < s.delay) :
    runSteps env n i (s :: rest) =
      (Event.sleep s.delay :: (runSteps env n (i + 1) rest).1,
       (runSteps env n (i + 1) rest).2) := by
  rcases hr : runSteps env n (i + 1) rest with ⟨t, r⟩
  simp [runSteps, hA, hB, hr, delayEvents, hd]

theorem unknown_kind_step_skipped_witness :
    runSteps envOk 0 0 [⟨"NOOP", "X", 1⟩, ⟨"BTN", "ENTER", 0⟩] =
      (Event.sleep 1 :: (runSteps envOk 0 1 [⟨"BTN", "ENTER", 0⟩]).1,
       (runSteps envOk 0 1 [⟨"BTN", "ENTER", 0⟩]).2) :=
  unknown_kind_step_skipped envOk 0 0 ⟨"NOOP", "X", 1⟩ [⟨"BTN", "ENTER", 0⟩]
    (by decide) (by decide) (by decide)

/-- C8: `_save_key` is a read-modify-write of the persisted store — every
field other than `client_key` keeps its value, and saving the same key
twice leaves the stored state identical to saving it once. -/
theorem save_key_read_modify_write (ks : KeyState) (k : String) :
    (∀ f, f ≠ "client_key" →
        ((save_key none ks k).1.store).lookup f = ks.store.lookup f) ∧
    (save_key none (save_key none ks k).1 k).1.store =
      (save_key none ks k).1.store := by
  constructor
  · intro f hf
    simp [save_key, dictSet_lookup_ne _ _ _ _ hf]
  · simp [save_key, dictSet_idem]

theorem save_key_read_modify_write_witness :
    ((save_key none ⟨none, store0⟩ "KEY").1.store).lookup "ip" =
      store0.lookup "ip" ∧
    (save_key none (save_key none ⟨none, store0⟩ "KEY").1 "KEY").1.store =
      (save_key none ⟨none, store0⟩ "KEY").1.store :=
  ⟨(save_key_read_modify_write ⟨none, store0⟩ "KEY").1 "ip" (by decide),
   (save_key_read_modify_write ⟨none, store0⟩ "KEY").2⟩

/-- C3: on a connected session, a sequence of well-kinded steps with
non-negative delays executes in exact order with exactly one device call
per step (launch for `APP`, button for `BTN`), a sleep of `d` directly
after each step with delay `d > 0`, and no sleep after a zero-delay step:
the step loop's trace is precisely the spec trace, and no error occurs. -/
theorem run_sequence_steps_exact (env : Env) (n : Nat) (seq : List Step)
    (hkinds : ∀ s ∈ seq, s.kind = "APP" ∨ s.kind = "BTN")
    (_hdelays : ∀ s ∈ seq, 0 ≤ s.delay)
    (hcalls : ∀ i, env.callOutcome n i = none) :
    runSteps env n 0 seq = (specSeqTrace n seq, none) := by
  have main : ∀ (sq : List Step),
      (∀ s ∈ sq, s.kind = "APP" ∨ s.kind = "BTN") →
      ∀ i, runSteps env n i sq = (specSeqTrace n sq, none) := by
    intro sq
    induction sq with
    | nil => intro _ i; simp [runSteps, specSeqTrace]
    | cons s rest ih =>
      intro hk i
      have hrest := ih (fun x hx => hk x (List.mem_cons_of_mem _ hx)) (i + 1)
      rcases hk s (List.mem_cons_self s rest) with hA | hB
      · simp [runSteps, hA, hcalls i, hrest, specSeqTrace, specStepTrace,
          delayEvents]
      · have hnA : s.kind ≠ "APP" := by rw [hB]; decide
        simp [runSteps, hB, hnA, hcalls i, hrest, specSeqTrace, specStepTrace,
          delayEvents]
  exact main seq hkinds 0

theorem run_sequence_steps_exact_witness :
    runSteps envOk 0 0 ((ACTIONS.lookup "channel_1").getD []) =
      (specSeqTrace 0 ((ACTIONS.lookup "channel_1").getD []), none) :=
  run_sequence_steps_exact envOk 0 ((ACTIONS.lookup "channel_1").getD [])
    (by decide) (by decide) (fun _ => rfl)

/-- C6: on the `turn_off` path, a successful power-off returns the plain
success message; a failure classified unreachable returns the
success-shaped already-off message; any other failure returns the failure
message. -/
theorem turn_off_unreachable_success (env : Env) (cfg : ConfigData)
    (store : Yaml) :
    ((turn_offM env 0 ⟨cfg.client_key, store⟩).2.2 = none →
       (execute_core env "turn_off" cfg store).2.2 =
         Except.ok "TV turned off.") ∧
    (∀ e, (turn_offM env 0 ⟨cfg.client_key, store⟩).2.2 = some e →
       (is_tv_off_error e = true →
          (execute_core env "turn_off" cfg store).2.2 =
            Except.ok "TV is already off or unreachable.") ∧
       (is_tv_off_error e = false →
          (execute_core env "turn_off" cfg store).2.2 =
            Except.ok ("Failed to turn off TV: " ++ excMsg e))) := by
  rcases ht : turn_offM env 0 ⟨cfg.client_key, store⟩ with ⟨ks, t, r⟩
  refine ⟨?_, ?_⟩
  · intro hr
    have hr' : r = none := hr
    subst hr'
    simp [execute_core, ht]
  · intro e hr
    have hr' : r = some e := hr
    subst hr'
    refine ⟨?_, ?_⟩
    · intro hoff
      simp [execute_core, ht, hoff]
    · intro hoff
      simp [execute_core, ht, hoff]

theorem turn_off_unreachable_success_witness :
    (execute_core envDown "turn_off" cfgFull store0).2.2 =
      Except.ok "TV is already off or unreachable." :=
  ((turn_off_unreachable_success envDown cfgFull store0).2
    (Exc.osError "refused") rfl).1 rfl

/-- C5: an unknown action name returns immediately with an empty effect
trace, and a first-attempt failure that is not classified unreachable
returns the failure message with zero wake invocations and a single
connection attempt (no retry). -/
theorem non_unreachable_never_wakes (env : Env) (a : String) (cfg : ConfigData)
    (store : Yaml) :
    (a ≠ "turn_off" → a ≠ "turn_on" → ACTIONS.lookup a = none →
       (execute_core env a cfg store).2.2 =
         Except.ok ("Unknown action: " ++ a) ∧
       (execute_core env a cfg store).2.1 = []) ∧
    (∀ seq e, ACTIONS.lookup a = some seq →
       (run_sequence env 0 seq ⟨cfg.client_key, store⟩).2.2 = some e →
       is_tv_off_error e = false →
       (execute_core env a cfg store).2.2 =
         Except.ok ("Action \x27" ++ a ++ "\x27 failed: " ++ excMsg e) ∧
       countWakeCalls (execute_core env a cfg store).2.1 = 0 ∧
       countConnects (execute_core env a cfg store).2.1 = 1) := by
  constructor
  · intro h1 h2 h3
    simp [execute_core, h1, h2, h3]
  · intro seq e hseq hfail hoff
    have hna := lookup_ACTIONS_names a seq hseq
    have h1 : a ≠ "turn_off" := by rcases hna with h | h <;> (subst h; decide)
    have h2 : a ≠ "turn_on" := by rcases hna with h | h <;> (subst h; decide)
    have hcw := run_sequence_wake_zero env 0 seq ⟨cfg.client_key, store⟩
    have hcc := run_sequence_connect_one env 0 seq ⟨cfg.client_key, store⟩
    rcases hrs : run_sequence env 0 seq ⟨cfg.client_key, store⟩ with ⟨ks1, t1, r1⟩
    rw [hrs] at hfail hcw hcc
    have hr1 : r1 = some e := hfail
    subst hr1
    simp [execute_core, h1, h2, hseq, hrs, hoff, hcw, hcc]

theorem non_unreachable_never_wakes_witness :
    (execute_core envBadCfg "channel_1" cfgFull store0).2.2 =
      Except.ok ("Action \x27" ++ "channel_1" ++ "\x27 failed: " ++
        excMsg (Exc.runtimeError "boom")) ∧
    countWakeCalls (execute_core envBadCfg "channel_1" cfgFull store0).2.1 = 0 ∧
    countConnects (execute_core envBadCfg "channel_1" cfgFull store0).2.1 = 1 :=
  (non_unreachable_never_wakes envBadCfg "channel_1" cfgFull store0).2
    ((ACTIONS.lookup "channel_1").getD []) (Exc.runtimeError "boom")
    rfl rfl rfl

/-- C2: when a catalog action's first run fails with an
unreachable-classified error and the wake signal succeeds, exactly one
wake-then-retry cycle runs on a brand-new session (session 1); a failing
retry — for any reason — yields the terminal failure message with exactly
one wake invocation and exactly two connection attempts in the whole
trace. -/
theorem wake_retry_exactly_once (env : Env) (a : String) (cfg : ConfigData)
    (store : Yaml) (seq : List Step) (e re : Exc)
    (hseq : ACTIONS.lookup a = some seq)
    (hfail : (run_sequence env 0 seq ⟨cfg.client_key, store⟩).2.2 = some e)
    (hoff : is_tv_off_error e = true)
    (hmac : cfg.mac.getD "" ≠ "")
    (hwake : env.wakeOutcome = none)
    (hretry : (run_sequence env 1 seq
        (run_sequence env 0 seq ⟨cfg.client_key, store⟩).1).2.2 = some re) :
    (execute_core env a cfg store).2.2 =
      Except.ok ("TV was woken but action failed: " ++ excMsg re) ∧
    countWakeCalls (execute_core env a cfg store).2.1 = 1 ∧
    countConnects (execute_core env a cfg store).2.1 = 2 ∧
    Event.connect 1 ∈ (execute_core env a cfg store).2.1 := by
  have hna := lookup_ACTIONS_names a seq hseq
  have h1 : a ≠ "turn_off" := by rcases hna with h | h <;> (subst h; decide)
  have h2 : a ≠ "turn_on" := by rcases hna with h | h <;> (subst h; decide)
  have hw1 := run_sequence_wake_zero env 0 seq ⟨cfg.client_key, store⟩
  have hc1 := run_sequence_connect_one env 0 seq ⟨cfg.client_key, store⟩
  rcases hrs : run_sequence env 0 seq ⟨cfg.client_key, store⟩ with ⟨ks1, t1, r1⟩
  rw [hrs] at hfail hretry hw1 hc1
  have hr1 : r1 = some e := hfail
  subst hr1
  have hw2 := run_sequence_wake_zero env 1 seq ks1
  have hc2 := run_sequence_connect_one env 1 seq ks1
  have hm2 := connect_mem_run_sequence env 1 seq ks1
  rcases hrt : run_sequence env 1 seq ks1 with ⟨ks2, t2, r2⟩
  rw [hrt] at hretry hw2 hc2 hm2
  have hr2 : r2 = some re := hretry
  subst hr2
  have hwd : wake_device env (cfg.mac.getD "") =
      ([Event.wakeCall (cfg.mac.getD ""),
        Event.wakePacket (cfg.mac.getD ""), Event.sleep (1 / 2),
        Event.wakePacket (cfg.mac.getD ""), Event.sleep (1 / 2),
        Event.wakePacket (cfg.mac.getD ""), Event.sleep (1 / 2),
        Event.sleep 12], none) := by
    unfold wake_device
    rw [if_neg hmac, hwake]
  simp at hw1 hc1 hw2 hc2 hm2
  unfold countWakeCalls at hw1 hw2
  unfold countConnects at hc1 hc2
  refine ⟨?_, ?_, ?_, ?_⟩
  · simp [execute_core, h1, h2, hseq, hrs, hoff, hwd, hrt]
  · simp [execute_core, h1, h2, hseq, hrs, hoff, hwd, hrt,
      countWakeCalls_append, countWakeCalls]
    omega
  · simp [execute_core, h1, h2, hseq, hrs, hoff, hwd, hrt,
      countConnects_append, countConnects]
    omega
  · simp [execute_core, h1, h2, hseq, hrs, hoff, hwd, hrt, hm2]

theorem savedBeforeCalls_connect_only (k : String) (n : Nat) :
    savedBeforeCalls k [Event.connect n] := by
  intro pre ev suf hdec hcall
  cases pre with
  | nil =>
    simp only [List.nil_append, List.cons.injEq] at hdec
    rw [← hdec.1] at hcall
    simp [isDeviceCall] at hcall
  | cons x pre' =>
    simp only [List.cons_append, List.cons.injEq] at hdec
    have h2 := hdec.2
    simp at h2

theorem savedBeforeCalls_cons2 (k : String) (n : Nat) (t : List Event) :
    savedBeforeCalls k (Event.connect n :: Event.saveKey k :: t) := by
  intro pre ev suf hdec hcall
  cases pre with
  | nil =>
    simp only [List.nil_append, List.cons.injEq] at hdec
    rw [← hdec.1] at hcall
    simp [isDeviceCall] at hcall
  | cons x pre' =>
    cases pre' with
    | nil =>
      simp only [List.cons_append, List.nil_append, List.cons.injEq] at hdec
      rw [← hdec.2.1] at hcall
      simp [isDeviceCall] at hcall
    | cons y pre'' =>
      simp only [List.cons_append, List.cons.injEq] at hdec
      rw [← hdec.2.1]
      simp

/-- C7: whenever `connect` observes a truthy channel key differing from
the session's held key, every per-step device call of the sequence run is
preceded in the trace by the persistence of that key — if the store write
fails, the run aborts before any step, so the ordering invariant holds on
every execution. -/
theorem new_key_saved_before_steps (env : Env) (n : Nat) (seq : List Step)
    (ks : KeyState) (k : String)
    (hconn : env.connectOutcome n = none)
    (hk : env.channelKey n = some k)
    (hne : k ≠ "")
    (hdiff : some k ≠ ks.configKey) :
    savedBeforeCalls k (run_sequence env n seq ks).2.1 := by
  cases hw : env.writeOutcome with
  | some w =>
    have hrun : run_sequence env n seq ks =
        ({ ks with configKey := some k }, [Event.connect n], some w) := by
      unfold run_sequence connectM save_key
      rw [hconn, hk, hw]
      simp [hne, hdiff]
    rw [hrun]
    exact savedBeforeCalls_connect_only k n
  | none =>
    have hcm : connectM env n ks =
        (⟨some k, dictSet ks.store "client_key" k⟩,
         [Event.connect n, Event.saveKey k], none) := by
      unfold connectM save_key
      rw [hconn, hk, hw]
      simp [hne, hdiff]
    unfold run_sequence
    rw [hcm]
    rcases hrs : runSteps env n 0 seq with ⟨sevs, rs⟩
    cases rs with
    | some e2 => exact savedBeforeCalls_cons2 k n sevs
    | none =>
      cases hsc : env.stillConnected n with
      | false =>
        simp only [hsc, Bool.false_eq_true, if_false]
        exact savedBeforeCalls_cons2 k n sevs
      | true =>
        simp only [hsc, if_true]
        cases hd : env.disconnectOutcome n with
        | none => exact savedBeforeCalls_cons2 k n (sevs ++ [Event.disconnect n])
        | some d =>
          cases d <;>
            exact savedBeforeCalls_cons2 k n (sevs ++ [Event.disconnect n])

theorem new_key_saved_before_steps_witness :
    savedBeforeCalls "NEWKEY"
      (run_sequence envNewKey 0 ((ACTIONS.lookup "channel_1").getD [])
        ⟨none, store0⟩).2.1 :=
  new_key_saved_before_steps envNewKey 0 ((ACTIONS.lookup "channel_1").getD [])
    ⟨none, store0⟩ "NEWKEY" rfl rfl (by decide) (by decide)

theorem wake_retry_exactly_once_witness :
    (execute_core envDown "channel_1" cfgFull store0).2.2 =
      Except.ok ("TV was woken but action failed: " ++
        excMsg (Exc.osError "refused")) ∧
    countWakeCalls (execute_core envDown "channel_1" cfgFull store0).2.1 = 1 ∧
    countConnects (execute_core envDown "channel_1" cfgFull store0).2.1 = 2 ∧
    Event.connect 1 ∈ (execute_core envDown "channel_1" cfgFull store0).2.1 :=
  wake_retry_exactly_once envDown "channel_1" cfgFull store0
    ((ACTIONS.lookup "channel_1").getD []) (Exc.osError "refused")
    (Exc.osError "refused") rfl rfl rfl (by decide) rfl rfl

/-- C4 counterexample: with an otherwise perfectly healthy device
(`envNewKey`, where the run succeeds and returns the plain success
message) making only the key store unwritable (`envNoWrite`, which is
exactly `envNewKey` with a failing store write) changes the result of the
very same invocation to a failure message: the persistence error aborts
the run instead of being logged and ignored. -/
theorem persistence_error_aborts_counterexample :
    (execute_action_with_retry envNewKey "channel_1" cfgNoMac store0).2.2 =
      "Action \x27channel_1\x27 completed successfully!" ∧
    envNoWrite =
      { envNewKey with writeOutcome := some (Exc.permissionError "denied") } ∧
    (execute_action_with_retry envNoWrite "channel_1" cfgNoMac store0).2.2 =
      "TV is off and Wake-on-LAN failed: MAC address not configured." ∧
    (execute_action_with_retry envNoWrite "channel_1" cfgNoMac store0).2.2 ≠
      "Action \x27channel_1\x27 completed successfully!" :=
  ⟨rfl, rfl, rfl, by decide⟩

/-- C4 amended: an unwritable key store makes `_save_key` raise out of
`connect`, aborting the run before any step; the error (an `OSError`
subclass) is classified unreachable, so `execute_action_with_retry` wakes
the TV and retries once.  The retry skips the save, because the
in-memory `config.client_key` was already updated before the failed
write, so when the wake and the device calls succeed the call returns the
woken-up success message — and the new key is never persisted (the store
is unchanged).  When the wake fails (e.g. no MAC configured) the call
returns a failure message instead. -/
theorem persistence_error_wake_retry (env : Env) (a : String)
    (cfg : ConfigData) (store : Yaml) (seq : List Step) (k : String) (w : Exc)
    (hseq : ACTIONS.lookup a = some seq)
    (hconn0 : env.connectOutcome 0 = none)
    (hkey0 : env.channelKey 0 = some k)
    (hne : k ≠ "")
    (hdiff : some k ≠ cfg.client_key)
    (hw : env.writeOutcome = some w)
    (hwoff : is_tv_off_error w = true)
    (hmac : cfg.mac.getD "" ≠ "")
    (hwake : env.wakeOutcome = none)
    (hconn1 : env.connectOutcome 1 = none)
    (hkey1 : env.channelKey 1 = some k)
    (hcalls : ∀ i, env.callOutcome 1 i = none)
    (hdisc : env.disconnectOutcome 1 = none) :
    (execute_core env a cfg store).2.2 =
      Except.ok ("TV was woken up. Action \x27" ++ a ++
        "\x27 completed successfully!") ∧
    (execute_core env a cfg store).1.store = store := by
  have hna := lookup_ACTIONS_names a seq hseq
  have h1 : a ≠ "turn_off" := by rcases hna with h | h <;> (subst h; decide)
  have h2 : a ≠ "turn_on" := by rcases hna with h | h <;> (subst h; decide)
  have hrun0 : run_sequence env 0 seq ⟨cfg.client_key, store⟩ =
      (⟨some k, store⟩, [Event.connect 0], some w) := by
    unfold run_sequence connectM save_key
    rw [hconn0, hkey0, hw]
    simp [hne, hdiff]
  have hwd : wake_device env (cfg.mac.getD "") =
      ([Event.wakeCall (cfg.mac.getD ""),
        Event.wakePacket (cfg.mac.getD ""), Event.sleep (1 / 2),
        Event.wakePacket (cfg.mac.getD ""), Event.sleep (1 / 2),
        Event.wakePacket (cfg.mac.getD ""), Event.sleep (1 / 2),
        Event.sleep 12], none) := by
    unfold wake_device
    rw [if_neg hmac, hwake]
  have hcm1 : connectM env 1 ⟨some k, store⟩ =
      (⟨some k, store⟩, [Event.connect 1], none) := by
    unfold connectM
    rw [hconn1, hkey1]
    simp
  have hr1 : (run_sequence env 1 seq ⟨some k, store⟩).1 = ⟨some k, store⟩ ∧
      (run_sequence env 1 seq ⟨some k, store⟩).2.2 = none := by
    have hclean := runSteps_none env 1 hcalls 0 seq
    rcases hst : runSteps env 1 0 seq with ⟨sevs, rs⟩
    rw [hst] at hclean
    have hrs' : rs = none := hclean
    subst hrs'
    unfold run_sequence
    rw [hcm1, hst]
    cases hsc : env.stillConnected 1 <;> simp [hsc, hdisc]
  rcases htr : run_sequence env 1 seq ⟨some k, store⟩ with ⟨ks2, t2, r2⟩
  rw [htr] at hr1
  have hks2 : ks2 = ⟨some k, store⟩ := hr1.1
  have hr2 : r2 = none := hr1.2
  subst hks2
  subst hr2
  constructor
  · simp [execute_core, h1, h2, hseq, hrun0, hwoff, hwd, htr]
  · simp [execute_core, h1, h2, hseq, hrun0, hwoff, hwd, htr]

theorem persistence_error_wake_retry_witness :
    (execute_core envNoWrite "channel_1" cfgFull store0).2.2 =
      Except.ok ("TV was woken up. Action \x27" ++ "channel_1" ++
        "\x27 completed successfully!") ∧
    (execute_core envNoWrite "channel_1" cfgFull store0).1.store = store0 :=
  persistence_error_wake_retry envNoWrite "channel_1" cfgFull store0
    ((ACTIONS.lookup "channel_1").getD []) "NEWKEY"
    (Exc.permissionError "denied") rfl rfl rfl (by decide) (by decide) rfl rfl
    (by decide) rfl rfl rfl (fun _ => rfl) rfl

end GrandmaTV
